import Mathlib

/-!
# Verification of the maize maturity prediction backend

A shallow embedding of `src/backend/backend.py` (a small Flask service) and
proofs about its request-validation and prediction-serving behaviour.

Modelling conventions:
* JSON-decoded Python values are the inductive `JsonVal`; real numbers are
  modelled as `ℚ` (every literal the service compares against is exact).
* Python's `float(x)` builtin is `pyFloat`: it succeeds on numbers and
  booleans, parses plain decimal string literals (sign, digits, optional
  fractional part — the subset relevant here; exponents/inf/nan are not
  modelled because no theorem depends on a string that would need them),
  raises `ValueError` on other strings, and raises `TypeError` on
  `None`/lists/dicts — exactly as CPython does.
* An exception escaping a route handler is modelled as an `HttpResponse`
  with `unhandled := true` (Flask's generic 500 error page, not the
  handler's structured JSON).
* `request.get_json()` is modelled as an `Option JsonVal` parameter of the
  route: `none` for an absent/unparseable body, `some v` for a body that
  parsed to the JSON value `v`.
* The loaded model artifact is opaque: a `PyModel` wraps the single
  capability `predict : List (List ℚ) → Except String (List ℚ)` (a features
  matrix in, an array of class codes out, or an exception message). The
  module-level `model` variable is an `Option PyModel` parameter: `none`
  when loading failed, `some m` when it succeeded.
-/

/-- A JSON-decoded Python value (the result of `request.get_json()`). -/
inductive JsonVal where
  | null
  | bool (b : Bool)
  | num (q : ℚ)
  | str (s : String)
  | arr (elems : List JsonVal)
  | obj (fields : List (String × JsonVal))
deriving Repr

/-- Outcome of CPython's `float(x)` builtin applied to a JSON-decoded value. -/
inductive CoerceResult where
  | ok (q : ℚ)
  | valueError
  | typeError
deriving Repr, DecidableEq

/-- Parse a list of decimal digit characters into a natural number;
`none` if the list is empty or contains a non-digit. -/
def natOfDigits (cs : List Char) : Option Nat :=
  if cs.isEmpty then none
  else if cs.all Char.isDigit then
    some (cs.foldl (fun n c => 10 * n + (c.toNat - 48)) 0)
  else none

/-- Whitespace as stripped by CPython's `float(str)`. -/
def isSpaceChar (c : Char) : Bool :=
  c = ' ' ∨ c = '\t' ∨ c = '\n' ∨ c = '\r'

/-- Strip leading and trailing whitespace from a character list. -/
def trimChars (cs : List Char) : List Char :=
  ((cs.dropWhile isSpaceChar).reverse.dropWhile isSpaceChar).reverse

/-- Split a character list at every `'.'`. -/
def splitOnDot (cs : List Char) : List (List Char) :=
  cs.foldr
    (fun c acc =>
      match acc with
      | [] => [[c]]
      | g :: gs => if c = '.' then [] :: g :: gs else (c :: g) :: gs)
    [[]]

/-- CPython `float(s)` on a string, restricted to plain decimal literals:
optional surrounding whitespace, optional sign, then `digits`, `digits.digits`,
`digits.` or `.digits`. Returns `none` when the string is not such a literal
(CPython raises `ValueError`). -/
def pyFloatOfString (s : String) : Option ℚ :=
  let t := trimChars s.toList
  let su :=
    match t with
    | '-' :: rest => ((true : Bool), rest)
    | '+' :: rest => ((false : Bool), rest)
    | _ => ((false : Bool), t)
  let q? : Option ℚ :=
    match splitOnDot su.2 with
    | [w] => (natOfDigits w).map (fun n => (n : ℚ))
    | [w, f] =>
      if w.isEmpty ∧ f.isEmpty then none
      else
        match (if w.isEmpty then some 0 else natOfDigits w),
              (if f.isEmpty then some 0 else natOfDigits f) with
        | some wi, some fi => some ((wi : ℚ) + (fi : ℚ) / ((10 : ℚ) ^ f.length))
        | _, _ => none
    | _ => none
  q?.map (fun q => if su.1 then -q else q)

/-- CPython's `float(x)` on a JSON-decoded value: numbers pass through,
booleans become 0/1, strings are parsed (bad strings raise `ValueError`),
and `None`, lists and dicts raise `TypeError`. -/
def pyFloat : JsonVal → CoerceResult
  | .num q => .ok q
  | .bool b => .ok (if b then 1 else 0)
  | .str s =>
    match pyFloatOfString s with
    | some q => .ok q
    | none => .valueError
  | .null => .typeError
  | .arr _ => .typeError
  | .obj _ => .typeError

/-- Python truthiness (`bool(x)`) of a JSON-decoded value: `None`, `False`,
`0`, `""`, `[]` and `{}` are falsy, everything else truthy. -/
def truthy : JsonVal → Bool
  | .null => false
  | .bool b => b
  | .num q => decide (q ≠ 0)
  | .str s => !s.isEmpty
  | .arr xs => !xs.isEmpty
  | .obj fs => !fs.isEmpty

/-- The five required request fields, in the fixed check order of
`validate_input`. -/
def requiredFields : List String := ["R", "G", "B", "temperature", "humidity"]

/-- Python's `field in data` for the argument of `validate_input`:
key membership for dicts, element equality for lists, substring test for
strings; `None`/numbers/booleans are not containers, so the membership test
raises `TypeError` (`none`). -/
def pyContains (data : JsonVal) (field : String) : Option Bool :=
  match data with
  | .obj fs => some (fs.lookup field).isSome
  | .arr xs => some (xs.any (fun x => match x with | .str s => s == field | _ => false))
  | .str s => some (decide (2 ≤ (s.splitOn field).length))
  | _ => none

/-- `all(field in data for field in required)` from `validate_input`:
`none` models a `TypeError` raised by the membership test (non-container
`data`), `some b` the boolean outcome. -/
def hasAllRequired (data : JsonVal) : Option Bool :=
  match data with
  | .obj _ | .arr _ | .str _ => some (requiredFields.all (fun f => (pyContains data f).getD false))
  | _ => none

/-- Python's `data[field]` subscription inside the `try` block of
`validate_input`: dict lookup for dicts (`none` would be a `KeyError`);
lists and strings reject a string index with `TypeError`, and other values
are not subscriptable — all modelled as `none` (an exception that
`except ValueError` does not catch). -/
def pyGetItem (data : JsonVal) (field : String) : Option JsonVal :=
  match data with
  | .obj fs => fs.lookup field
  | _ => none

/-- Result of `validate_input`: either a Python-level return
`(valid, message)`, or an exception escaping to the caller
(`raises` — a `TypeError`/`KeyError` that `except ValueError` does not
catch). -/
inductive ValidateResult where
  | ret (valid : Bool) (msg : String)
  | raises
deriving Repr, DecidableEq

/-- One step of the `try` block of `validate_input`:
`if not (lo <= float(data[field]) <= hi): return False, msg`.
A `ValueError` from `float` is caught by the surrounding handler and
becomes `(False, "Invalid numeric values")`; a `TypeError` (or a failed
subscription) escapes. On success the next check runs. -/
def checkField (v? : Option JsonVal) (lo hi : ℚ) (msg : String)
    (next : ValidateResult) : ValidateResult :=
  match v? with
  | none => .raises
  | some v =>
    match pyFloat v with
    | .typeError => .raises
    | .valueError => .ret false "Invalid numeric values"
    | .ok x => if lo ≤ x ∧ x ≤ hi then next else .ret false msg

/-- `validate_input(data)` from `backend.py` (lines 39–59): presence check of
the five required keys, then per-field coercion+range checks in the fixed
order R, G, B, temperature, humidity, with `except ValueError` mapping a
coercion failure to `(False, "Invalid numeric values")`. -/
def validate_input (data : JsonVal) : ValidateResult :=
  match hasAllRequired data with
  | none => .raises
  | some false => .ret false "Missing required fields"
  | some true =>
    checkField (pyGetItem data "R") 0 255 "R value must be 0-255"
      (checkField (pyGetItem data "G") 0 255 "G value must be 0-255"
        (checkField (pyGetItem data "B") 0 255 "B value must be 0-255"
          (checkField (pyGetItem data "temperature") 15 45 "Temperature must be 15-45°C"
            (checkField (pyGetItem data "humidity") 0 100 "Humidity must be 0-100%"
              (.ret true "")))))

/-- The opaque classifier artifact: `model.predict(features)` takes the 1×5
features matrix and returns an array of class codes, or raises (modelled as
`Except.error` with the exception text). -/
structure PyModel where
  predict : List (List ℚ) → Except String (List ℚ)

/-- An HTTP response: status code, JSON body (field list), and whether the
response came from an exception escaping the handler (Flask's generic
internal-server-error page rather than the handler's structured JSON). -/
structure HttpResponse where
  status : Nat
  body : List (String × JsonVal)
  unhandled : Bool
deriving Repr

/-- Flask's fallback response when an exception escapes a route handler:
HTTP 500, not produced by the handler's own `jsonify` calls. -/
def flaskUnhandled : HttpResponse :=
  ⟨500, [("error", .str "Internal Server Error")], true⟩

/-- The `500` response of the `except Exception` handler in `predict`
(lines 97–103), with `details` the stringified exception. -/
def predictionFailed (details : String) : HttpResponse :=
  ⟨500, [("error", .str "Prediction failed"),
         ("details", .str details),
         ("status", .str "error")], false⟩

/-- `float(data[f])` as recomputed in the feature-construction block of
`predict` (lines 79–85): `none` models any exception (KeyError, TypeError,
ValueError), all caught by the surrounding `except Exception`. -/
def pyGetFloat (data : JsonVal) (field : String) : Option ℚ :=
  match pyGetItem data field with
  | none => none
  | some v =>
    match pyFloat v with
    | .ok q => some q
    | _ => none

/-- The `POST /predict` route handler (`backend.py` lines 63–103).
`model` is the module-level model reference (`none` when loading failed);
`body` is the result of `request.get_json()` (`none` for an
absent/unparseable body). -/
def predict (model : Option PyModel) (body : Option JsonVal) : HttpResponse :=
  match model with
  | none => ⟨503, [("error", .str "Model not loaded"),
                   ("status", .str "unavailable")], false⟩
  | some m =>
    match body with
    | none => ⟨400, [("error", .str "No data provided")], false⟩
    | some data =>
      if !truthy data then ⟨400, [("error", .str "No data provided")], false⟩
      else
        match validate_input data with
        | .raises => flaskUnhandled
        | .ret false msg => ⟨400, [("error", .str msg)], false⟩
        | .ret true _ =>
          match pyGetFloat data "R", pyGetFloat data "G", pyGetFloat data "B",
                pyGetFloat data "temperature", pyGetFloat data "humidity" with
          | some r, some g, some b, some t, some h =>
            match m.predict [[r, g, b, t, h]] with
            | .error e => predictionFailed e
            | .ok [] => predictionFailed "index 0 is out of bounds for axis 0 with size 0"
            | .ok (p :: _) =>
              ⟨200, [("prediction", .str (if p = 1 then "Mature" else "Immature")),
                     ("confidence", .num p),
                     ("status", .str "success")], false⟩
          | _, _, _, _, _ => predictionFailed "could not convert value to float"

/-- The first two dot-separated components of a version string, joined by a
dot — `joblib.__version__.split('.')[0] + "." + split('.')[1]` from the
health route. -/
def majorMinor (v : String) : String :=
  ((v.splitOn ".").headD "") ++ "." ++ (((v.splitOn ".").drop 1).headD "")

/-- The `GET /health` route handler (`backend.py` lines 106–118). The
timestamp and the version strings are environment inputs, passed as
parameters. -/
def health_check (model : Option PyModel) (ts pyver npver jlver : String) :
    HttpResponse :=
  ⟨200, [("status", .str (if model.isSome then "healthy" else "unhealthy")),
         ("model_loaded", .bool model.isSome),
         ("timestamp", .str ts),
         ("python_version", .str pyver),
         ("dependencies", .obj [("numpy", .str npver),
                                ("scikit-learn", .str (majorMinor jlver))])], false⟩

/-- The `GET /` route handler (`backend.py` lines 121–131). -/
def home (model : Option PyModel) : HttpResponse :=
  ⟨200, [("service", .str "Maize Maturity Prediction API"),
         ("status", .str (if model.isSome then "operational" else "degraded")),
         ("endpoints", .obj [("/predict", .str "POST with RGB and environmental data"),
                             ("/health", .str "GET service status")]),
         ("documentation", .str "https://your-docs-url.com")], false⟩

/-- A model stub whose predict capability always returns class code 1. -/
def mOne : PyModel := ⟨fun _ => .ok [1]⟩

/-- The in-range example request from the spec's test scenarios:
`{"R":100,"G":150,"B":50,"temperature":25,"humidity":60}`. -/
def goodData : JsonVal :=
  .obj [("R", .num 100), ("G", .num 150), ("B", .num 50),
        ("temperature", .num 25), ("humidity", .num 60)]

/-- A dict with some key bound is truthy (non-empty). -/
theorem truthy_obj_of_lookup {fs : List (String × JsonVal)} {k : String}
    {v : JsonVal} (h : fs.lookup k = some v) : truthy (.obj fs) = true := by
  cases fs with
  | nil => simp [List.lookup] at h
  | cons a as => simp [truthy, List.isEmpty]

/-- On a dict with all five required keys bound, `validate_input` reduces to
the chain of per-field checks on the bound values. -/
theorem validate_input_obj (fs : List (String × JsonVal)) (vR vG vB vT vH : JsonVal)
    (hR : fs.lookup "R" = some vR) (hG : fs.lookup "G" = some vG)
    (hB : fs.lookup "B" = some vB) (hT : fs.lookup "temperature" = some vT)
    (hH : fs.lookup "humidity" = some vH) :
    validate_input (.obj fs) =
      checkField (some vR) 0 255 "R value must be 0-255"
        (checkField (some vG) 0 255 "G value must be 0-255"
          (checkField (some vB) 0 255 "B value must be 0-255"
            (checkField (some vT) 15 45 "Temperature must be 15-45°C"
              (checkField (some vH) 0 100 "Humidity must be 0-100%"
                (.ret true ""))))) := by
  simp [validate_input, hasAllRequired, requiredFields, pyContains, pyGetItem,
        hR, hG, hB, hT, hH]

/-- C1: for a request dict with all five fields present, coercible and in
range, with the model loaded and its predict call succeeding with raw output
`p`, the handler responds 200 with `prediction = "Mature"` iff `p = 1`
(else `"Immature"`), `confidence = p` and `status = "success"`. -/
theorem c1_valid_request_prediction (m : PyModel) (fs : List (String × JsonVal))
    (vR vG vB vT vH : JsonVal) (r g b t h p : ℚ) (rest : List ℚ)
    (hR : fs.lookup "R" = some vR) (hG : fs.lookup "G" = some vG)
    (hB : fs.lookup "B" = some vB) (hT : fs.lookup "temperature" = some vT)
    (hH : fs.lookup "humidity" = some vH)
    (cR : pyFloat vR = .ok r) (cG : pyFloat vG = .ok g)
    (cB : pyFloat vB = .ok b) (cT : pyFloat vT = .ok t)
    (cH : pyFloat vH = .ok h)
    (rR : 0 ≤ r ∧ r ≤ 255) (rG : 0 ≤ g ∧ g ≤ 255) (rB : 0 ≤ b ∧ b ≤ 255)
    (rT : 15 ≤ t ∧ t ≤ 45) (rH : 0 ≤ h ∧ h ≤ 100)
    (hp : m.predict [[r, g, b, t, h]] = .ok (p :: rest)) :
    predict (some m) (some (.obj fs)) =
      ⟨200, [("prediction", .str (if p = 1 then "Mature" else "Immature")),
             ("confidence", .num p),
             ("status", .str "success")], false⟩ := by
  have hv := validate_input_obj fs vR vG vB vT vH hR hG hB hT hH
  have ht := truthy_obj_of_lookup hR
  simp [predict, ht, hv, checkField, cR, cG, cB, cT, cH, rR, rG, rB, rT, rH,
        pyGetFloat, pyGetItem, hR, hG, hB, hT, hH, hp]

/-- Witness for C1: the spec's example scenario against a model answering
class 1 yields 200 `{"prediction":"Mature","confidence":1,"status":"success"}`. -/
theorem c1_witness :
    predict (some mOne) (some goodData) =
      ⟨200, [("prediction", .str (if (1 : ℚ) = 1 then "Mature" else "Immature")),
             ("confidence", .num 1),
             ("status", .str "success")], false⟩ :=
  c1_valid_request_prediction mOne
    [("R", .num 100), ("G", .num 150), ("B", .num 50),
     ("temperature", .num 25), ("humidity", .num 60)]
    (.num 100) (.num 150) (.num 50) (.num 25) (.num 60)
    100 150 50 25 60 1 []
    rfl rfl rfl rfl rfl rfl rfl rfl rfl rfl
    (by norm_num) (by norm_num) (by norm_num) (by norm_num) (by norm_num) rfl

/-- C2: with the model reference unset, `/predict` answers 503 for every
body (the validator and model are never consulted — the response is the same
even for bodies on which the validator would raise), while `/` and `/health`
still answer 200 and `/health` reports `model_loaded: false`. -/
theorem c2_model_unset_503 :
    (∀ body, predict none body =
       ⟨503, [("error", .str "Model not loaded"),
              ("status", .str "unavailable")], false⟩)
    ∧ (∀ ts pv nv jv, (health_check none ts pv nv jv).status = 200
        ∧ (health_check none ts pv nv jv).body.lookup "model_loaded" =
            some (.bool false))
    ∧ (home none).status = 200 := by
  refine ⟨fun body => rfl, fun ts pv nv jv => ⟨rfl, ?_⟩, rfl⟩
  simp [health_check, List.lookup]

/-- The reason string for the first out-of-range field under the spec's fixed
check order R → G → B → temperature → humidity, naming the field's valid
range. -/
def firstRangeMsg (r g b t h : ℚ) : String :=
  if ¬(0 ≤ r ∧ r ≤ 255) then "R value must be 0-255"
  else if ¬(0 ≤ g ∧ g ≤ 255) then "G value must be 0-255"
  else if ¬(0 ≤ b ∧ b ≤ 255) then "B value must be 0-255"
  else if ¬(15 ≤ t ∧ t ≤ 45) then "Temperature must be 15-45°C"
  else "Humidity must be 0-100%"

/-- C3: for a request dict with all five fields present and coercible but at
least one out of range, the handler answers 400 and the reason names the
first offending field, in the order R → G → B → temperature → humidity, with
its valid range. -/
theorem c3_first_out_of_range (m : PyModel) (fs : List (String × JsonVal))
    (vR vG vB vT vH : JsonVal) (r g b t h : ℚ)
    (hR : fs.lookup "R" = some vR) (hG : fs.lookup "G" = some vG)
    (hB : fs.lookup "B" = some vB) (hT : fs.lookup "temperature" = some vT)
    (hH : fs.lookup "humidity" = some vH)
    (cR : pyFloat vR = .ok r) (cG : pyFloat vG = .ok g)
    (cB : pyFloat vB = .ok b) (cT : pyFloat vT = .ok t)
    (cH : pyFloat vH = .ok h)
    (hoff : ¬(0 ≤ r ∧ r ≤ 255) ∨ ¬(0 ≤ g ∧ g ≤ 255) ∨ ¬(0 ≤ b ∧ b ≤ 255)
      ∨ ¬(15 ≤ t ∧ t ≤ 45) ∨ ¬(0 ≤ h ∧ h ≤ 100)) :
    predict (some m) (some (.obj fs)) =
      ⟨400, [("error", .str (firstRangeMsg r g b t h))], false⟩ := by
  have hv := validate_input_obj fs vR vG vB vT vH hR hG hB hT hH
  have ht := truthy_obj_of_lookup hR
  by_cases hr : 0 ≤ r ∧ r ≤ 255
  · by_cases hg : 0 ≤ g ∧ g ≤ 255
    · by_cases hb : 0 ≤ b ∧ b ≤ 255
      · by_cases htp : 15 ≤ t ∧ t ≤ 45
        · by_cases hh : 0 ≤ h ∧ h ≤ 100
          · rcases hoff with hc | hc | hc | hc | hc <;> exact absurd (by assumption) hc
          · simp [predict, ht, hv, checkField, cR, cG, cB, cT, cH,
                  hr, hg, hb, htp, hh, firstRangeMsg]
        · simp [predict, ht, hv, checkField, cR, cG, cB, cT, cH,
                hr, hg, hb, htp, firstRangeMsg]
      · simp [predict, ht, hv, checkField, cR, cG, cB, cT, cH,
              hr, hg, hb, firstRangeMsg]
    · simp [predict, ht, hv, checkField, cR, cG, cB, cT, cH,
            hr, hg, firstRangeMsg]
  · simp [predict, ht, hv, checkField, cR, cG, cB, cT, cH, hr, firstRangeMsg]

/-- Witness for C3: the spec's example `{"R":300,...}` yields 400 with the
R-range reason. -/
theorem c3_witness :
    predict (some mOne)
        (some (.obj [("R", .num 300), ("G", .num 150), ("B", .num 50),
                     ("temperature", .num 25), ("humidity", .num 60)])) =
      ⟨400, [("error", .str (firstRangeMsg 300 150 50 25 60))], false⟩ :=
  c3_first_out_of_range mOne
    [("R", .num 300), ("G", .num 150), ("B", .num 50),
     ("temperature", .num 25), ("humidity", .num 60)]
    (.num 300) (.num 150) (.num 50) (.num 25) (.num 60)
    300 150 50 25 60
    rfl rfl rfl rfl rfl rfl rfl rfl rfl rfl
    (Or.inl (by norm_num))

/-- The C4 scenario: R is coercible but out of range (300) while G is a
non-coercible string. -/
def c4Data : JsonVal :=
  .obj [("R", .num 300), ("G", .str "abc"), ("B", .num 50),
        ("temperature", .num 25), ("humidity", .num 60)]

/-- C4 counterexample: with R = 300 (coercible, out of range) and G = "abc"
(not coercible), the validator reports the R range error, not
"Invalid numeric values" — coercion of all five values is NOT attempted
before range checks; the checks are interleaved per field. -/
theorem c4_counterexample :
    pyFloat (.str "abc") = .valueError
    ∧ validate_input c4Data = .ret false "R value must be 0-255"
    ∧ "R value must be 0-255" ≠ "Invalid numeric values" := by
  refine ⟨rfl, rfl, ?_⟩
  decide

/-- C4 amended: coercion and range checking are interleaved per field in the
order R → G → B → temperature → humidity. (i) If the first field's value
fails coercion with `ValueError`, the reason is "Invalid numeric values";
(ii) likewise when every earlier field coerces and passes its range check
and the current field fails coercion; (iii) but an out-of-range earlier
field preempts a later field's coercion failure: its range reason is
returned regardless of the later values. -/
theorem c4_amended_interleaved_checks :
    (∀ (fs : List (String × JsonVal)) (vR vG vB vT vH : JsonVal),
      fs.lookup "R" = some vR → fs.lookup "G" = some vG →
      fs.lookup "B" = some vB → fs.lookup "temperature" = some vT →
      fs.lookup "humidity" = some vH →
      pyFloat vR = .valueError →
      validate_input (.obj fs) = .ret false "Invalid numeric values")
    ∧ (∀ (fs : List (String × JsonVal)) (vR vG vB vT vH : JsonVal) (r : ℚ),
      fs.lookup "R" = some vR → fs.lookup "G" = some vG →
      fs.lookup "B" = some vB → fs.lookup "temperature" = some vT →
      fs.lookup "humidity" = some vH →
      pyFloat vR = .ok r → 0 ≤ r ∧ r ≤ 255 → pyFloat vG = .valueError →
      validate_input (.obj fs) = .ret false "Invalid numeric values")
    ∧ (∀ (fs : List (String × JsonVal)) (vR vG vB vT vH : JsonVal) (r : ℚ),
      fs.lookup "R" = some vR → fs.lookup "G" = some vG →
      fs.lookup "B" = some vB → fs.lookup "temperature" = some vT →
      fs.lookup "humidity" = some vH →
      pyFloat vR = .ok r → ¬(0 ≤ r ∧ r ≤ 255) →
      validate_input (.obj fs) = .ret false "R value must be 0-255") := by
  refine ⟨?_, ?_, ?_⟩
  · intro fs vR vG vB vT vH hR hG hB hT hH cR
    rw [validate_input_obj fs vR vG vB vT vH hR hG hB hT hH]
    simp [checkField, cR]
  · intro fs vR vG vB vT vH r hR hG hB hT hH cR hr cG
    rw [validate_input_obj fs vR vG vB vT vH hR hG hB hT hH]
    simp [checkField, cR, hr, cG]
  · intro fs vR vG vB vT vH r hR hG hB hT hH cR hr
    rw [validate_input_obj fs vR vG vB vT vH hR hG hB hT hH]
    simp [checkField, cR, hr]

/-- Witness for the amended C4, instantiating all three parts at concrete
dicts: a non-coercible R, an in-range R followed by a non-coercible G, and
an out-of-range R followed by a non-coercible G. -/
theorem c4_amended_witness :
    validate_input (.obj [("R", .str "x"), ("G", .num 1), ("B", .num 1),
        ("temperature", .num 20), ("humidity", .num 50)]) =
      .ret false "Invalid numeric values"
    ∧ validate_input (.obj [("R", .num 10), ("G", .str "x"), ("B", .num 1),
        ("temperature", .num 20), ("humidity", .num 50)]) =
      .ret false "Invalid numeric values"
    ∧ validate_input c4Data = .ret false "R value must be 0-255" :=
  ⟨c4_amended_interleaved_checks.1
      [("R", .str "x"), ("G", .num 1), ("B", .num 1),
       ("temperature", .num 20), ("humidity", .num 50)]
      (.str "x") (.num 1) (.num 1) (.num 20) (.num 50)
      rfl rfl rfl rfl rfl rfl,
   c4_amended_interleaved_checks.2.1
      [("R", .num 10), ("G", .str "x"), ("B", .num 1),
       ("temperature", .num 20), ("humidity", .num 50)]
      (.num 10) (.str "x") (.num 1) (.num 20) (.num 50) 10
      rfl rfl rfl rfl rfl rfl (by norm_num) rfl,
   c4_amended_interleaved_checks.2.2
      [("R", .num 300), ("G", .str "abc"), ("B", .num 50),
       ("temperature", .num 25), ("humidity", .num 60)]
      (.num 300) (.str "abc") (.num 50) (.num 25) (.num 60) 300
      rfl rfl rfl rfl rfl rfl (by norm_num)⟩

/-- The C5 failing input: all five keys present and `R` bound to JSON `null`,
on which `float()` raises `TypeError`, which `except ValueError` does not
catch. -/
def c5Data : JsonVal :=
  .obj [("R", .null), ("G", .num 1), ("B", .num 1),
        ("temperature", .num 20), ("humidity", .num 50)]

/-- C5: contrary to the spec, the validator CAN raise to its caller: on a
mapping whose `R` is `null`, `float(None)` raises `TypeError`, the
`except ValueError` handler does not catch it, and the `/predict` request
ends in the framework's unhandled-exception 500, not structured JSON. -/
theorem c5_typeerror_escapes (m : PyModel) :
    pyFloat .null = .typeError
    ∧ validate_input c5Data = .raises
    ∧ predict (some m) (some c5Data) = flaskUnhandled
    ∧ (predict (some m) (some c5Data)).unhandled = true := by
  exact ⟨rfl, rfl, rfl, rfl⟩

/-- C6 counterexample: on the empty dict — all five required fields absent —
the handler answers 400 "No data provided" (the falsy-body check fires
first), not a missing-required-fields reason. -/
theorem c6_counterexample :
    predict (some mOne) (some (.obj [])) =
      ⟨400, [("error", .str "No data provided")], false⟩
    ∧ "No data provided" ≠ "Missing required fields" := by
  refine ⟨rfl, ?_⟩
  decide

/-- C6 amended: for every NON-EMPTY request dict missing at least one of the
five required fields, the handler answers 400 "Missing required fields",
whatever the bound values are (the existence check precedes any coercion or
range check); the empty dict instead gets 400 "No data provided". -/
theorem c6_missing_fields (m : PyModel) (fs : List (String × JsonVal))
    (hne : fs ≠ [])
    (hmiss : requiredFields.all (fun f => (fs.lookup f).isSome) = false) :
    predict (some m) (some (.obj fs)) =
      ⟨400, [("error", .str "Missing required fields")], false⟩ := by
  have ht : truthy (.obj fs) = true := by
    cases fs with
    | nil => exact absurd rfl hne
    | cons a as => simp [truthy, List.isEmpty]
  have hv : validate_input (.obj fs) = .ret false "Missing required fields" := by
    simp [validate_input, hasAllRequired, pyContains, hmiss]
  simp [predict, ht, hv]

/-- Witness for the amended C6: the spec's humidity-missing example yields
400 "Missing required fields". -/
theorem c6_missing_fields_witness :
    predict (some mOne)
        (some (.obj [("R", .num 100), ("G", .num 150), ("B", .num 50),
                     ("temperature", .num 25)])) =
      ⟨400, [("error", .str "Missing required fields")], false⟩ :=
  c6_missing_fields mOne
    [("R", .num 100), ("G", .num 150), ("B", .num 50), ("temperature", .num 25)]
    (by simp) rfl

/-- C7: with the model loaded, a request with no parseable JSON body
(`request.get_json()` yields nothing) is answered 400 "No data provided",
for every model — so neither the validator nor the model is consulted. -/
theorem c7_no_body (m : PyModel) :
    predict (some m) none = ⟨400, [("error", .str "No data provided")], false⟩ :=
  rfl

/-- C8: `/health` always answers 200, whatever the model state; its body
reports status "healthy" iff the model is loaded (else "unhealthy"),
`model_loaded` true exactly when the model is loaded, and the timestamp. -/
theorem c8_health (model : Option PyModel) (ts pv nv jv : String) :
    (health_check model ts pv nv jv).status = 200
    ∧ (health_check model ts pv nv jv).body.lookup "status" =
        some (.str (if model.isSome then "healthy" else "unhealthy"))
    ∧ ((health_check model ts pv nv jv).body.lookup "status" =
        some (.str "healthy") ↔ model.isSome = true)
    ∧ (health_check model ts pv nv jv).body.lookup "model_loaded" =
        some (.bool model.isSome)
    ∧ (health_check model ts pv nv jv).body.lookup "timestamp" = some (.str ts) := by
  cases model <;> simp [health_check, List.lookup]

/-- C9: the `/predict` handler is deterministic — it reads only the model
reference and the request body and mutates nothing, so identical requests
against the same model state yield identical responses, in particular the
same `prediction` field. -/
theorem c9_deterministic (model : Option PyModel) (b₁ b₂ : Option JsonVal)
    (hb : b₁ = b₂) :
    predict model b₁ = predict model b₂
    ∧ (predict model b₁).body.lookup "prediction" =
        (predict model b₂).body.lookup "prediction" := by
  subst hb
  exact ⟨rfl, rfl⟩

/-- Witness for C9 at the example request and a concrete model. -/
theorem c9_witness :
    predict (some mOne) (some goodData) = predict (some mOne) (some goodData)
    ∧ (predict (some mOne) (some goodData)).body.lookup "prediction" =
        (predict (some mOne) (some goodData)).body.lookup "prediction" :=
  c9_deterministic (some mOne) (some goodData) (some goodData) rfl

/-- C10: with the model loaded, every request body that parses to a falsy
JSON value (the empty object, empty array, `0`, `""`, `false`, `null`) is
answered 400 "No data provided" before the validator runs — so for the empty
object the missing-fields reason is never produced. -/
theorem c10_falsy_body (m : PyModel) (j : JsonVal) (hfalsy : truthy j = false) :
    predict (some m) (some j) =
      ⟨400, [("error", .str "No data provided")], false⟩ := by
  simp [predict, hfalsy]

/-- Witness for C10 at the empty object. -/
theorem c10_witness :
    predict (some mOne) (some (.obj [])) =
      ⟨400, [("error", .str "No data provided")], false⟩ :=
  c10_falsy_body mOne (.obj []) rfl
